import Mathlib

/-!
Verification of the authentication / session / notes-store core of the
Streamlit notes application (`src/streamlit_app.py`).

The database-backed operations are embedded as pure functions over an explicit
`DB` state: each SQL statement becomes the corresponding list operation, each
function that commits returns the updated state, and operations whose failure
behaviour matters (`delete_user_account`) take explicit fault flags marking the
points at which the underlying statements can raise.  `random.choice` is given
the random source as a function argument, and `json.loads` is passed in as a
function with the library's failure shape (`Option`).
-/

/- ## SHA-256 (`hashlib.sha256(...).hexdigest()`), words as `Nat` reduced mod `2 ^ 32` -/

def M32 : Nat := 4294967296

def rotr (n w : Nat) : Nat := ((w >>> n) ||| (w <<< (32 - n))) % M32

def bsig0 (x : Nat) : Nat := rotr 2 x ^^^ rotr 13 x ^^^ rotr 22 x
def bsig1 (x : Nat) : Nat := rotr 6 x ^^^ rotr 11 x ^^^ rotr 25 x
def ssig0 (x : Nat) : Nat := rotr 7 x ^^^ rotr 18 x ^^^ (x >>> 3)
def ssig1 (x : Nat) : Nat := rotr 17 x ^^^ rotr 19 x ^^^ (x >>> 10)

def chF (x y z : Nat) : Nat := (x &&& y) ^^^ ((x ^^^ 4294967295) &&& z)
def majF (x y z : Nat) : Nat := (x &&& y) ^^^ (x &&& z) ^^^ (y &&& z)

/-- The 64 round constants of FIPS 180-4 (written in decimal). -/
def shaK : List Nat :=
  [1116352408, 1899447441, 3049323471, 3921009573, 961987163, 1508970993,
   2453635748, 2870763221, 3624381080, 310598401, 607225278, 1426881987,
   1925078388, 2162078206, 2614888103, 3248222580, 3835390401, 4022224774,
   264347078, 604807628, 770255983, 1249150122, 1555081692, 1996064986,
   2554220882, 2821834349, 2952996808, 3210313671, 3336571891, 3584528711,
   113926993, 338241895, 666307205, 773529912, 1294757372, 1396182291,
   1695183700, 1986661051, 2177026350, 2456956037, 2730485921, 2820302411,
   3259730800, 3345764771, 3516065817, 3600352804, 4094571909, 275423344,
   430227734, 506948616, 659060556, 883997877, 958139571, 1322822218,
   1537002063, 1747873779, 1955562222, 2024104815, 2227730452, 2361852424,
   2428436474, 2756734187, 3204031479, 3329325298]

/-- The eight initial hash words of FIPS 180-4 (written in decimal). -/
def shaH0 : List Nat :=
  [1779033703, 3144134277, 1013904242, 2773480762,
   1359893119, 2600822924, 528734635, 1541459225]

/-- Group bytes into big-endian 32-bit words, four bytes per word. -/
def bytesToWords : List Nat → List Nat
  | b0 :: b1 :: b2 :: b3 :: rest => (((b0 * 256 + b1) * 256 + b2) * 256 + b3) :: bytesToWords rest
  | _ => []

/-- Extend the message schedule; `acc` holds the words produced so far, newest first. -/
def schedExt : Nat → List Nat → List Nat
  | 0, acc => acc
  | f + 1, acc =>
    let w := (ssig1 (acc.getD 1 0) + acc.getD 6 0 + ssig0 (acc.getD 14 0) + acc.getD 15 0) % M32
    schedExt f (w :: acc)

/-- The 64-entry message schedule of one 16-word chunk. -/
def schedule (chunkWords : List Nat) : List Nat :=
  (schedExt 48 chunkWords.reverse).reverse

/-- One compression round on the state `[a,b,c,d,e,f,g,h]`. -/
def shaRound (st : List Nat) (kw : Nat × Nat) : List Nat :=
  match st with
  | [a, b, c, d, e, f, g, h] =>
    let t1 := (h + bsig1 e + chF e f g + kw.1 + kw.2) % M32
    let t2 := (bsig0 a + majF a b c) % M32
    [(t1 + t2) % M32, a, b, c, (d + t1) % M32, e, f, g]
  | st => st

/-- Compress one 64-byte chunk into the running hash state. -/
def shaCompress (H : List Nat) (chunk : List Nat) : List Nat :=
  let final := (shaK.zip (schedule (bytesToWords chunk))).foldl shaRound H
  (H.zip final).map (fun p => (p.1 + p.2) % M32)

/-- Process `fuel` 64-byte chunks of `bytes`. -/
def processBlocks : Nat → List Nat → List Nat → List Nat
  | 0, _, H => H
  | f + 1, bytes, H => processBlocks f (bytes.drop 64) (shaCompress H (bytes.take 64))

/-- SHA-256 padding: `0x80`, zeros to 56 mod 64, then the 64-bit big-endian bit length. -/
def padMessage (msg : List Nat) : List Nat :=
  let bitLen := msg.length * 8
  let zeros := (119 - msg.length % 64) % 64
  msg ++ [0x80] ++ List.replicate zeros 0
      ++ (List.range 8).map (fun i => bitLen >>> (8 * (7 - i)) &&& 255)

/-- The eight 32-bit words of the SHA-256 digest of a byte string. -/
def sha256Words (msg : List Nat) : List Nat :=
  let padded := padMessage msg
  processBlocks (padded.length / 64) padded shaH0

/-- UTF-8 encoding of one character, as in Python's `str.encode()`. -/
def utf8Bytes (c : Char) : List Nat :=
  let v := c.toNat
  if v < 128 then [v]
  else if v < 2048 then [192 + v / 64, 128 + v % 64]
  else if v < 65536 then [224 + v / 4096, 128 + v / 64 % 64, 128 + v % 64]
  else [240 + v / 262144, 128 + v / 4096 % 64, 128 + v / 64 % 64, 128 + v % 64]

def strBytes (s : String) : List Nat := s.data.flatMap utf8Bytes

/-- The digest packed big-endian into one number; every word of `sha256Words`
is below `2 ^ 32`, so the final reduction only records that the digest is 256
bits wide. -/
def sha256Nat (s : String) : Nat :=
  (sha256Words (strBytes s)).foldl (fun acc w => acc * M32 + w) 0 % 2 ^ 256

def hexDigit (d : Nat) : Char := "0123456789abcdef".data.getD d '0'

/-- Lower-case hex rendering of a 256-bit number: 64 nibbles, most significant
first — exactly `hexdigest()` of the 32 big-endian digest bytes. -/
def toHex256 (n : Nat) : String :=
  ⟨(List.range 64).map (fun i => hexDigit (n >>> (4 * (63 - i)) &&& 15))⟩

/-- `hash_password(password)`: `hashlib.sha256(password.encode()).hexdigest()`. -/
def hash_password (password : String) : String := toHex256 (sha256Nat password)

/-- Known-answer check: the embedding reproduces the FIPS 180-4 test vector for
`"abc"`, so it is SHA-256 and not some simplification. -/
theorem sha256_known_answer :
    hash_password "abc" = "ba7816bf8f01cfea414140de5dae2223b00361a396177a9cb410ff61f20015ad" := by
  decide

/- ## Data model: the two tables of the persisted schema -/

/-- A row of `users(id, username UNIQUE, email UNIQUE, password_hash, created_at)`
(the timestamp plays no role in any operation and is omitted). -/
structure User where
  id : Nat
  username : String
  email : String
  password_hash : String
deriving DecidableEq

/-- A row of `notes(id, user_id REFERENCES users.id, content, created_at)`
(rows are kept in insertion order, which is creation order). -/
structure Note where
  id : Nat
  user_id : Nat
  content : String
deriving DecidableEq

/-- The store, with the serial counters that produce fresh `RETURNING id` values. -/
structure DB where
  users : List User
  notes : List Note
  nextUserId : Nat
  nextNoteId : Nat
deriving DecidableEq

/-- The store-layer uniqueness invariants: distinct rows of `users` have
distinct ids, usernames and emails (the `UNIQUE` constraints plus serial id). -/
def DB.WF (db : DB) : Prop :=
  db.users.Pairwise (fun u v => u.id ≠ v.id ∧ u.username ≠ v.username ∧ u.email ≠ v.email)

instance (db : DB) : Decidable db.WF := by unfold DB.WF; infer_instance

/- ## Store operations (`src/streamlit_app.py`) -/

/-- `create_user(username, email, password)`: `INSERT INTO users ... RETURNING id`.
The `UNIQUE` constraints on `username` and `email` make the insert raise a
duplicate-key error when either value is already present. -/
def create_user (db : DB) (username email password : String) :
    Except String (Nat × DB) :=
  if db.users.any (fun u => u.username == username) then
    .error "duplicate key value violates unique constraint users_username_key"
  else if db.users.any (fun u => u.email == email) then
    .error "duplicate key value violates unique constraint users_email_key"
  else
    let uid := db.nextUserId
    .ok (uid, { db with
      users := db.users ++ [{ id := uid, username := username, email := email,
                              password_hash := hash_password password }],
      nextUserId := uid + 1 })

/-- `verify_user(email, password)`:
`SELECT * FROM users WHERE email = %s AND password_hash = %s`, one row or `None`. -/
def verify_user (db : DB) (email password : String) : Option User :=
  db.users.find? (fun u => u.email == email && u.password_hash == hash_password password)

/-- `verify_user_by_id(user_id, email)`:
`SELECT * FROM users WHERE id = %s AND email = %s`, one row or `None`. -/
def verify_user_by_id (db : DB) (user_id : Nat) (email : String) : Option User :=
  db.users.find? (fun u => u.id == user_id && u.email == email)

/-- `load_notes(user_id)`: `SELECT * FROM notes WHERE user_id = %s ORDER BY
created_at DESC` — the rows of the user, newest first. -/
def load_notes (db : DB) (user_id : Nat) : List Note :=
  (db.notes.filter (fun n => n.user_id == user_id)).reverse

/-- `save_note(content, user_id)`: `INSERT INTO notes ... RETURNING id`. -/
def save_note (db : DB) (content : String) (user_id : Nat) : Nat × DB :=
  let nid := db.nextNoteId
  (nid, { db with
    notes := db.notes ++ [{ id := nid, user_id := user_id, content := content }],
    nextNoteId := nid + 1 })

/-- `update_note(note_id, content)`: `UPDATE notes SET content = %s WHERE id = %s`
— the row is selected by note id alone. -/
def update_note (db : DB) (note_id : Nat) (content : String) : DB :=
  let notes :=
    db.notes.map (fun n => if n.id = note_id then { n with content := content } else n)
  { db with notes := notes }

/-- `delete_note(note_id)`: `DELETE FROM notes WHERE id = %s` — the row is
selected by note id alone. -/
def delete_note (db : DB) (note_id : Nat) : DB :=
  { db with notes := db.notes.filter (fun n => n.id != note_id) }

/-- `delete_user_account(user_id)`: inside one transaction, `DELETE FROM notes
WHERE user_id = %s`, then `DELETE FROM users WHERE id = %s`, then commit; on any
exception the transaction is rolled back and the exception re-raised.  The three
flags inject a failure at each statement; the second component is the state the
store is left in (the input `db` whenever the transaction rolled back). -/
def delete_user_account (db : DB) (user_id : Nat) (failNotes failUser failCommit : Bool) :
    Except String Bool × DB :=
  if failNotes then (.error "delete notes failed", db)
  else
    let t1 := { db with notes := db.notes.filter (fun n => n.user_id != user_id) }
    if failUser then (.error "delete user failed", db)
    else
      let t2 := { t1 with users := t1.users.filter (fun u => u.id != user_id) }
      if failCommit then (.error "commit failed", db)
      else (.ok true, t2)

/-- `contains_spaces(text)`: `' ' in text`. -/
def contains_spaces (text : String) : Bool := text.data.contains ' '

/-- `update_password(user_id, new_password)`:
`UPDATE users SET password_hash = %s WHERE id = %s`. -/
def update_password (db : DB) (user_id : Nat) (new_password : String) : DB :=
  let users :=
    db.users.map (fun u =>
      if u.id = user_id then { u with password_hash := hash_password new_password } else u)
  { db with users := users }

/-- `update_username(user_id, new_username)`:
`UPDATE users SET username = %s WHERE id = %s`. -/
def update_username (db : DB) (user_id : Nat) (new_username : String) : DB :=
  let users :=
    db.users.map (fun u => if u.id = user_id then { u with username := new_username } else u)
  { db with users := users }

/-- `update_email(user_id, new_email)`: first `SELECT id FROM users WHERE email
= %s AND id != %s`; a hit raises `Exception(\x22Email already exists\x22)` before any
mutation, otherwise `UPDATE users SET email = %s WHERE id = %s`.  The second
component is the state the store is left in. -/
def update_email (db : DB) (user_id : Nat) (new_email : String) :
    Except String Unit × DB :=
  match db.users.find? (fun u => u.email == new_email && u.id != user_id) with
  | some _ => (.error "Email already exists", db)
  | none =>
      let users :=
        db.users.map (fun u => if u.id = user_id then { u with email := new_email } else u)
      (.ok (), { db with users := users })

/- ## Password reset -/

/-- `string.ascii_letters + string.digits`. -/
def temp_password_chars : List Char :=
  ("abcdefghijklmnopqrstuvwxyzABCDEFGHIJKLMNOPQRSTUVWXYZ" ++ "0123456789").data

/-- `generate_temp_password(length=12)`: `''.join(random.choice(chars) for _ in
range(length))`.  The random source is `pick`: draw `i` selects the character at
index `pick i` (reduced into range) of the 62-character alphabet, so every
sequence of choices the library can make is a `pick`. -/
def generate_temp_password (pick : Nat → Nat) (length : Nat := 12) : String :=
  ⟨(List.range length).map
    (fun i => temp_password_chars.get
      ⟨pick i % temp_password_chars.length, Nat.mod_lt _ (by decide)⟩)⟩

/-- `reset_user_password(email)`: `SELECT id FROM users WHERE email = %s`; no
row raises `Exception(\x22Email not found\x22)` before any mutation; otherwise a
temporary password is generated and `UPDATE users SET password_hash = %s WHERE
email = %s` committed.  The second component is the state the store is left in. -/
def reset_user_password (db : DB) (email : String) (pick : Nat → Nat) :
    Except String String × DB :=
  match db.users.find? (fun u => u.email == email) with
  | none => (.error "Email not found", db)
  | some _ =>
      let temp := generate_temp_password pick
      let users :=
        db.users.map (fun u =>
          if u.email = email then { u with password_hash := hash_password temp } else u)
      (.ok temp, { db with users := users })

/- ## Session state and the remember-token -/

/-- `st.session_state.user`: the process-local binding of the current session
to zero or one authenticated user. -/
structure Session where
  user : Option User
deriving DecidableEq

/-- The values `json.loads` can produce. -/
inductive Json where
  | null
  | bool (b : Bool)
  | num (n : Int)
  | str (s : String)
  | arr (elems : List Json)
  | obj (fields : List (String × Json))

/-- `data[key]` on a parsed JSON value: a hit only on an object carrying the
key (last occurrence wins, as in Python's dict); everything else raises
`KeyError`/`TypeError`, which `load_auth_cookie` swallows — modelled as `none`. -/
def Json.getField (j : Json) (key : String) : Option Json :=
  match j with
  | .obj fields => fields.foldl (fun acc kv => if kv.1 = key then some kv.2 else acc) none
  | _ => none

/-- Using a JSON value as the `id = %s` parameter: only a non-negative number
can match a serial id column; any other value makes the lookup come back empty
or raise, and either way `load_auth_cookie` falls through to `False`. -/
def Json.asNat (j : Json) : Option Nat :=
  match j with
  | .num n => if 0 ≤ n then some n.toNat else none
  | _ => none

/-- Using a JSON value as the `email = %s` parameter: only a string matches. -/
def Json.asStr (j : Json) : Option String :=
  match j with
  | .str s => some s
  | _ => none

/-- `load_auth_cookie()`: reads `st.query_params.get('auth')` (passed in as
`query_auth`), skips falsy values (`None` and the empty string), parses with
`json.loads` (passed in as `jsonLoads`, `none` = parse failure), extracts
`data['user_id']` and `data['email']`, and validates via `verify_user_by_id`;
on success the session user is set and `True` returned.  The bare `except`
turns every failure into the `False` path with the session untouched. -/
def load_auth_cookie (db : DB) (query_auth : Option String)
    (jsonLoads : String → Option Json) (sess : Session) : Bool × Session :=
  match query_auth with
  | none => (false, sess)
  | some cookie =>
    if cookie = "" then (false, sess)
    else
      match jsonLoads cookie with
      | none => (false, sess)
      | some data =>
        match (data.getField "user_id").bind Json.asNat,
              (data.getField "email").bind Json.asStr with
        | some uid, some email =>
          match verify_user_by_id db uid email with
          | some user => (true, { sess with user := some user })
          | none => (false, sess)
        | some _, none => (false, sess)
        | none, _ => (false, sess)

/- ## UI-flow logic the claims reference -/

/-- The signup form's validation gate, in the order the code checks it. -/
def signup_valid (username email password : String) : Bool :=
  username != "" && email != "" && password != "" &&
  !contains_spaces username && !contains_spaces password &&
  decide (6 ≤ password.length) && email.data.contains '@'

/-- The outcomes of the change-password form. -/
inductive PwChangeResult where
  | fieldsRequired
  | currentMismatch
  | spacesInNew
  | tooShort
  | authError
  | updateOk
deriving DecidableEq

/-- The change-password form logic: field validation, then re-verification of
the current password via `verify_user` on the logged-in user's email, and only
on a hit the call to `update_password`.  The second component is the state the
store is left in. -/
def change_password_form (db : DB) (user : User)
    (current_password confirm_current new_password : String) :
    PwChangeResult × DB :=
  if current_password = "" ∨ confirm_current = "" ∨ new_password = "" then
    (.fieldsRequired, db)
  else if current_password ≠ confirm_current then (.currentMismatch, db)
  else if contains_spaces new_password then (.spacesInNew, db)
  else if new_password.length < 6 then (.tooShort, db)
  else
    match verify_user db user.email current_password with
    | some _ => (.updateOk, update_password db user.id new_password)
    | none => (.authError, db)

/- ## Fixtures for concrete witnesses -/

/-- Example store: two users, one note each. -/
def exUser1 : User := { id := 1, username := "alice", email := "a@x.com", password_hash := "h1" }

def exUser2 : User := { id := 2, username := "bob", email := "b@x.com", password_hash := "h2" }

def exDB : DB :=
  { users := [exUser1, exUser2],
    notes := [{ id := 1, user_id := 1, content := "n1" }, { id := 2, user_id := 2, content := "n2" }],
    nextUserId := 3, nextNoteId := 3 }

def emptyDB : DB := { users := [], notes := [], nextUserId := 1, nextNoteId := 1 }

/-- The store `create_user emptyDB "alice" "a@x.com" "secret1"` produces. -/
def signupDB : DB :=
  { users := [{ id := 1, username := "alice", email := "a@x.com",
                password_hash := hash_password "secret1" }],
    notes := [], nextUserId := 2, nextNoteId := 1 }

/- ## Helper lemmas -/

/-- The uniqueness relation of `DB.WF` is symmetric. -/
theorem userDistinct_symm :
    Symmetric (fun u v : User => u.id ≠ v.id ∧ u.username ≠ v.username ∧ u.email ≠ v.email) :=
  fun _ _ h => ⟨Ne.symm h.1, Ne.symm h.2.1, Ne.symm h.2.2⟩

theorem sha256Nat_lt (s : String) : sha256Nat s < 2 ^ 256 :=
  Nat.mod_lt _ (Nat.two_pow_pos 256)

/- ## Claims -/

/-- Claim C9 (counterexample): the password hash cannot be injective on all
plaintexts — it maps the infinitely many strings into a space of at most
`2 ^ 256` digests, so by pigeonhole two distinct plaintexts share a digest. -/
theorem hash_password_not_injective :
    ¬ ∀ p1 p2 : String, p1 ≠ p2 → hash_password p1 ≠ hash_password p2 := by
  intro hinj
  obtain ⟨p1, p2, hne, heq⟩ :=
    Finite.exists_ne_map_eq_of_infinite
      (fun s : String => (⟨sha256Nat s, sha256Nat_lt s⟩ : Fin (2 ^ 256)))
  have hnat : sha256Nat p1 = sha256Nat p2 := congrArg Fin.val heq
  exact hinj p1 p2 hne
    (show toHex256 (sha256Nat p1) = toHex256 (sha256Nat p2) from congrArg toHex256 hnat)

/-- Claim C9 (amended): `hash_password` is deterministic — equal inputs give
equal digests — and every digest is exactly 64 characters wide; distinct
plaintexts are not guaranteed distinct digests (collisions exist by
pigeonhole, they are merely infeasible to exhibit). -/
theorem hash_password_deterministic (p : String) :
    hash_password p = hash_password p ∧ (hash_password p).length = 64 :=
  ⟨rfl, by simp [hash_password, toHex256, String.length]⟩

/-- Claim C1: the account-deletion cascade is atomic.  On the `.ok` outcome
every note owned by the user and the user row itself are gone while all other
rows survive; on any injected failure (either `DELETE` or the commit) the
resulting state is exactly the input state — the transaction rolled back both
statements — and the error is re-raised to the caller as the `.error` result. -/
theorem delete_user_account_atomic (db : DB) (uid : Nat) (f1 f2 f3 : Bool) :
    (∀ b, (delete_user_account db uid f1 f2 f3).1 = .ok b →
       (∀ n ∈ (delete_user_account db uid f1 f2 f3).2.notes, n.user_id ≠ uid) ∧
       (∀ u ∈ (delete_user_account db uid f1 f2 f3).2.users, u.id ≠ uid) ∧
       (∀ n ∈ db.notes, n.user_id ≠ uid → n ∈ (delete_user_account db uid f1 f2 f3).2.notes) ∧
       (∀ u ∈ db.users, u.id ≠ uid → u ∈ (delete_user_account db uid f1 f2 f3).2.users)) ∧
    (∀ e, (delete_user_account db uid f1 f2 f3).1 = .error e →
       (delete_user_account db uid f1 f2 f3).2 = db) := by
  cases f1 <;> cases f2 <;> cases f3 <;>
    simp [delete_user_account, List.mem_filter] <;>
    exact ⟨fun n hn h => ⟨hn, h⟩, fun u hu h => ⟨hu, h⟩⟩

/-- Witness for C1: on the example store, deleting user 1 with no failure
removes the user, and a failure at the first statement leaves the store
untouched. -/
theorem delete_user_account_atomic_witness :
    (∀ u ∈ (delete_user_account exDB 1 false false false).2.users, u.id ≠ 1) ∧
    (delete_user_account exDB 1 true false false).2 = exDB := by
  constructor
  · exact ((delete_user_account_atomic exDB 1 false false false).1 true rfl).2.1
  · exact (delete_user_account_atomic exDB 1 true false false).2 "delete notes failed" rfl

/-- Claim C10: `update_note` and `delete_note` select the row by note id alone:
whatever user owns the note, the update rewrites its content and the delete
removes it — no ownership check intervenes. -/
theorem note_ops_ignore_owner (db : DB) (note_id owner : Nat) (content : String) (n : Note)
    (hn : n ∈ db.notes) (hid : n.id = note_id) (howner : n.user_id = owner) :
    { n with content := content } ∈ (update_note db note_id content).notes ∧
    n ∉ (delete_note db note_id).notes := by
  constructor
  · simp only [update_note]
    exact List.mem_map.mpr ⟨n, hn, by simp [hid]⟩
  · simp only [delete_note, List.mem_filter]
    rintro ⟨-, hb⟩
    simp [hid] at hb

/-- Witness for C10: the note of user 2 is rewritten and removed even though
its owner (2) is not the acting user. -/
theorem note_ops_ignore_owner_witness :
    ({ id := 2, user_id := 2, content := "hacked" } : Note) ∈ (update_note exDB 2 "hacked").notes ∧
    ({ id := 2, user_id := 2, content := "n2" } : Note) ∉ (delete_note exDB 2).notes :=
  note_ops_ignore_owner exDB 2 2 "hacked" { id := 2, user_id := 2, content := "n2" }
    (by decide) rfl rfl

/-- Claim C7: `update_email` to an email already owned by a different user id
fails with the conflict error and leaves the store — in particular the email
stored for the caller — completely unchanged. -/
theorem update_email_conflict (db : DB) (uid : Nat) (new_email : String) (v : User)
    (hv : v ∈ db.users) (hve : v.email = new_email) (hvid : v.id ≠ uid) :
    update_email db uid new_email = (.error "Email already exists", db) := by
  have hsome : (db.users.find? (fun u => u.email == new_email && u.id != uid)).isSome := by
    rw [List.find?_isSome]
    exact ⟨v, hv, by simp [hve, hvid]⟩
  obtain ⟨w, hw⟩ := Option.isSome_iff_exists.mp hsome
  simp only [update_email, hw]

/-- Witness for C7: changing user 1's email to user 2's email conflicts and
leaves the store unchanged. -/
theorem update_email_conflict_witness :
    update_email exDB 1 "b@x.com" = (.error "Email already exists", exDB) :=
  update_email_conflict exDB 1 "b@x.com" exUser2 (by decide) rfl (by decide)

/-- Claim C6: for a registered email, a password whose hash differs from the
stored hash makes `verify_user` return `none` — and the embedding is a total
function, so no error can escape. -/
theorem verify_user_wrong_password (db : DB) (email password : String) (u : User)
    (hwf : db.WF) (hu : u ∈ db.users) (he : u.email = email)
    (hh : u.password_hash ≠ hash_password password) :
    verify_user db email password = none := by
  rw [verify_user, List.find?_eq_none]
  intro v hv hp
  rw [Bool.and_eq_true, beq_iff_eq, beq_iff_eq] at hp
  by_cases hvu : v = u
  · exact hh (hvu ▸ hp.2)
  · exact (List.Pairwise.forall userDistinct_symm hwf hv hu hvu).2.2 (hp.1.trans he.symm)

/-- Witness for C6: the wrong password on a registered email verifies to
`none` on the example store. -/
theorem verify_user_wrong_password_witness :
    verify_user exDB "a@x.com" "wrongpw" = none :=
  verify_user_wrong_password exDB "a@x.com" "wrongpw" exUser1
    (by decide) (by decide) rfl (by decide)

/-- Claim C2: a signup tuple the validation accepts that `create_user` stores
is found again by `verify_user` on the same email and password, with the
username and email of the returned record equal to the inputs. -/
theorem create_then_verify (db : DB) (username email password : String)
    (uid : Nat) (db' : DB)
    (hval : signup_valid username email password = true)
    (hok : create_user db username email password = .ok (uid, db')) :
    ∃ u : User, verify_user db' email password = some u ∧
      u.username = username ∧ u.email = email := by
  unfold create_user at hok
  split at hok
  · exact absurd hok (by simp)
  split at hok
  · exact absurd hok (by simp)
  next h2 =>
  simp only [Except.ok.injEq, Prod.mk.injEq] at hok
  obtain ⟨-, rfl⟩ := hok
  refine ⟨⟨db.nextUserId, username, email, hash_password password⟩, ?_, rfl, rfl⟩
  have hnone : db.users.find?
      (fun u => u.email == email && u.password_hash == hash_password password) = none := by
    rw [List.find?_eq_none]
    intro u hu hp
    rw [Bool.and_eq_true] at hp
    exact h2 (List.any_eq_true.mpr ⟨u, hu, hp.1⟩)
  show (db.users ++ [(⟨db.nextUserId, username, email, hash_password password⟩ : User)]).find?
      (fun u => u.email == email && u.password_hash == hash_password password)
      = some (⟨db.nextUserId, username, email, hash_password password⟩ : User)
  rw [List.find?_append, hnone]
  simp

/-- Witness for C2: signing up alice on the empty store and logging in with
her email and password returns her record. -/
theorem create_then_verify_witness :
    ∃ u : User, verify_user signupDB "a@x.com" "secret1" = some u ∧
      u.username = "alice" ∧ u.email = "a@x.com" :=
  create_then_verify emptyDB "alice" "a@x.com" "secret1" 1 signupDB (by decide) rfl

/-- Claim C8: the change-password flow re-verifies the current password via
`verify_user` first: when it verifies to `none` the outcome is the
authentication error with the store unchanged, and only when it verifies to a
user is `update_password` invoked. -/
theorem change_password_requires_reverify (db : DB) (user : User)
    (current confirmCur newPw : String)
    (h1 : current ≠ "") (h2 : confirmCur ≠ "") (h3 : newPw ≠ "")
    (h4 : current = confirmCur) (h5 : contains_spaces newPw = false)
    (h6 : ¬ newPw.length < 6) :
    (verify_user db user.email current = none →
       change_password_form db user current confirmCur newPw = (.authError, db)) ∧
    (∀ v, verify_user db user.email current = some v →
       change_password_form db user current confirmCur newPw
         = (.updateOk, update_password db user.id newPw)) := by
  constructor
  · intro hverify
    simp only [change_password_form]
    rw [if_neg (by simp [h1, h2, h3]), if_neg (not_not_intro h4), if_neg (by simp [h5]),
        if_neg h6, hverify]
  · intro v hverify
    simp only [change_password_form]
    rw [if_neg (by simp [h1, h2, h3]), if_neg (not_not_intro h4), if_neg (by simp [h5]),
        if_neg h6, hverify]

/-- Witness for C8: a wrong current password on the example store yields the
authentication error and leaves the store unchanged. -/
theorem change_password_requires_reverify_witness :
    change_password_form exDB exUser1 "wrongpw" "wrongpw" "newpass1" = (.authError, exDB) :=
  (change_password_requires_reverify exDB exUser1 "wrongpw" "wrongpw" "newpass1"
    (by decide) (by decide) (by decide) rfl (by decide) (by decide)).1 (by decide)

/-- Claim C4: a remember-token that parses and carries a `user_id` and an
`email`, where the embedded email differs from the email stored for every user
with that id, does not establish a session: the check returns `false` and the
session state is untouched. -/
theorem stale_token_no_session (db : DB) (cookie : String)
    (jl : String → Option Json) (data : Json) (uid : Nat) (email : String) (sess : Session)
    (hparse : jl cookie = some data)
    (huid : (data.getField "user_id").bind Json.asNat = some uid)
    (hemail : (data.getField "email").bind Json.asStr = some email)
    (hmismatch : ∀ u ∈ db.users, u.id = uid → u.email ≠ email) :
    load_auth_cookie db (some cookie) jl sess = (false, sess) := by
  have hv : verify_user_by_id db uid email = none := by
    rw [verify_user_by_id, List.find?_eq_none]
    intro u hu hp
    rw [Bool.and_eq_true, beq_iff_eq, beq_iff_eq] at hp
    exact hmismatch u hu hp.1 hp.2
  simp only [load_auth_cookie]
  by_cases hc : cookie = ""
  · simp [hc]
  · simp [hc, hparse, huid, hemail, hv]

/-- Witness for C4: a token claiming user 5 with email `b@x.com` against a
store where user 5's email is `c@x.com` establishes no session. -/
theorem stale_token_no_session_witness :
    load_auth_cookie
      { users := [{ id := 5, username := "carol", email := "c@x.com", password_hash := "h5" }],
        notes := [], nextUserId := 6, nextNoteId := 1 }
      (some "tok")
      (fun _ => some (Json.obj [("user_id", Json.num 5), ("email", Json.str "b@x.com")]))
      { user := none }
      = (false, { user := none }) :=
  stale_token_no_session
    { users := [{ id := 5, username := "carol", email := "c@x.com", password_hash := "h5" }],
      notes := [], nextUserId := 6, nextNoteId := 1 }
    "tok"
    (fun _ => some (Json.obj [("user_id", Json.num 5), ("email", Json.str "b@x.com")]))
    (Json.obj [("user_id", Json.num 5), ("email", Json.str "b@x.com")])
    5 "b@x.com" { user := none } rfl (by decide) (by decide) (by decide)

/-- Claim C5: the remember-token check never propagates an error.  Every run
either succeeds — the token is present, non-empty, parses, carries both
fields, and the store lookup returns a user, in which case the session is
bound to that user — or returns `false` with the session exactly as it was
(Anonymous stays Anonymous); there is no third outcome. -/
theorem load_auth_cookie_never_raises (db : DB) (qa : Option String)
    (jl : String → Option Json) (sess : Session) :
    (∃ cookie data uid email user,
       qa = some cookie ∧ cookie ≠ "" ∧ jl cookie = some data ∧
       (data.getField "user_id").bind Json.asNat = some uid ∧
       (data.getField "email").bind Json.asStr = some email ∧
       verify_user_by_id db uid email = some user ∧
       load_auth_cookie db qa jl sess = (true, { user := some user })) ∨
    load_auth_cookie db qa jl sess = (false, sess) := by
  cases qa with
  | none => exact Or.inr rfl
  | some cookie =>
    by_cases hc : cookie = ""
    · exact Or.inr (by simp [load_auth_cookie, hc])
    · cases hj : jl cookie with
      | none => exact Or.inr (by simp [load_auth_cookie, hc, hj])
      | some data =>
        cases hu : (data.getField "user_id").bind Json.asNat with
        | none => exact Or.inr (by simp [load_auth_cookie, hc, hj, hu])
        | some uid =>
          cases he : (data.getField "email").bind Json.asStr with
          | none => exact Or.inr (by simp [load_auth_cookie, hc, hj, hu, he])
          | some email =>
            cases hv : verify_user_by_id db uid email with
            | none => exact Or.inr (by simp [load_auth_cookie, hc, hj, hu, he, hv])
            | some user =>
              exact Or.inl ⟨cookie, data, uid, email, user, rfl, hc, hj, hu, he, hv,
                by simp [load_auth_cookie, hc, hj, hu, he, hv]⟩

/-- After overwriting the hash of every user carrying `email`, the lookup by
`email` and the new hash finds the (first) updated user. -/
theorem reset_find_updated (l : List User) (email hashNew : String)
    (hex : ∃ u ∈ l, u.email = email) :
    ∃ u0 ∈ l, u0.email = email ∧
      (l.map (fun u => if u.email = email then { u with password_hash := hashNew } else u)).find?
        (fun v => v.email == email && v.password_hash == hashNew)
        = some { u0 with password_hash := hashNew } := by
  induction l with
  | nil => simp at hex
  | cons a t ih =>
    obtain ⟨aid, aname, aemail, ahash⟩ := a
    by_cases ha : aemail = email
    · subst ha
      refine ⟨⟨aid, aname, aemail, ahash⟩, List.mem_cons_self _ _, rfl, ?_⟩
      simp [List.find?_cons]
    · have hex' : ∃ u ∈ t, u.email = email := by
        obtain ⟨u, hu, hue⟩ := hex
        rcases List.mem_cons.mp hu with rfl | hut
        · exact absurd hue ha
        · exact ⟨u, hut, hue⟩
      obtain ⟨u0, hu0, hu0e, hfind⟩ := ih hex'
      refine ⟨u0, List.mem_cons_of_mem _ hu0, hu0e, ?_⟩
      simp [List.find?_cons, ha, hfind]

/-- After overwriting the hash of every user carrying `email` with `hashNew`,
a lookup by `email` and any hash different from `hashNew` finds nothing. -/
theorem reset_find_old_none (l : List User) (email old hashNew : String)
    (hne : hash_password old ≠ hashNew) :
    (l.map (fun u => if u.email = email then { u with password_hash := hashNew } else u)).find?
      (fun v => v.email == email && v.password_hash == hash_password old) = none := by
  rw [List.find?_eq_none]
  intro v hv
  rw [List.mem_map] at hv
  obtain ⟨u, hu, rfl⟩ := hv
  obtain ⟨uid, uname, uemail, uhash⟩ := u
  by_cases hue : uemail = email
  · simp [hue, Ne.symm hne]
  · simp [hue]

/-- Claim C3 (amended): for a registered email the reset succeeds, the
temporary password has exactly 12 characters all drawn from letters and
digits, and afterwards `verify_user` with the temporary password returns the
user (with the overwritten hash); `verify_user` with the old password returns
`none` provided the old password's hash differs from the temporary password's
hash.  For an unregistered email it fails with the not-found error without
mutating the store. -/
theorem reset_user_password_spec (db : DB) (email : String) (pick : Nat → Nat) :
    ((∃ u ∈ db.users, u.email = email) →
       ∃ temp db',
         reset_user_password db email pick = (.ok temp, db') ∧
         temp.length = 12 ∧
         (∀ c ∈ temp.data, c ∈ temp_password_chars) ∧
         (∃ u0 ∈ db.users, u0.email = email ∧
            verify_user db' email temp = some { u0 with password_hash := hash_password temp }) ∧
         (∀ old, hash_password old ≠ hash_password temp →
            verify_user db' email old = none)) ∧
    ((∀ u ∈ db.users, u.email ≠ email) →
       reset_user_password db email pick = (.error "Email not found", db)) := by
  constructor
  · intro hex
    have hsome : (db.users.find? (fun u => u.email == email)).isSome := by
      rw [List.find?_isSome]
      obtain ⟨u, hu, hue⟩ := hex
      exact ⟨u, hu, by simp [hue]⟩
    obtain ⟨w, hw⟩ := Option.isSome_iff_exists.mp hsome
    refine ⟨generate_temp_password pick,
      { db with users := db.users.map (fun u =>
          if u.email = email then
            { u with password_hash := hash_password (generate_temp_password pick) }
          else u) },
      ?_, rfl, ?_, ?_, ?_⟩
    · simp only [reset_user_password, hw]
    · intro c hc
      simp only [generate_temp_password, List.mem_map] at hc
      obtain ⟨i, -, rfl⟩ := hc
      exact List.get_mem _ _ _
    · exact reset_find_updated db.users email (hash_password (generate_temp_password pick)) hex
    · exact fun old hne => reset_find_old_none db.users email old _ hne
  · intro hall
    have hnone : db.users.find? (fun u => u.email == email) = none := by
      rw [List.find?_eq_none]
      intro u hu hp
      exact hall u hu (by simpa using hp)
    simp only [reset_user_password, hnone]

/-- Witness for C3 (amended): resetting alice's password on the example store. -/
theorem reset_user_password_spec_witness :
    ∃ temp db',
      reset_user_password exDB "a@x.com" (fun _ => 0) = (.ok temp, db') ∧
      temp.length = 12 ∧
      (∀ c ∈ temp.data, c ∈ temp_password_chars) ∧
      (∃ u0 ∈ exDB.users, u0.email = "a@x.com" ∧
         verify_user db' "a@x.com" temp = some { u0 with password_hash := hash_password temp }) ∧
      (∀ old, hash_password old ≠ hash_password temp →
         verify_user db' "a@x.com" old = none) :=
  (reset_user_password_spec exDB "a@x.com" (fun _ => 0)).1 ⟨exUser1, by decide, rfl⟩

/-- A store whose single user's password is the 12-letter string `aaaaaaaaaaaa`
(a password the signup validation accepts). -/
def resetCexDB : DB :=
  { users := [{ id := 1, username := "alice", email := "a@x.com",
                password_hash := hash_password "aaaaaaaaaaaa" }],
    notes := [], nextUserId := 2, nextNoteId := 1 }

/-- Claim C3 (counterexample): the random source can draw the temporary
password equal to the old password — here every draw picks the letter at
index 0, producing `aaaaaaaaaaaa` — and then the old password still verifies
after the reset, contradicting the claim that `verifyUser(email, old_password)`
returns none for every registered email. -/
theorem reset_old_password_counterexample :
    (verify_user resetCexDB "a@x.com" "aaaaaaaaaaaa").isSome = true ∧
    (reset_user_password resetCexDB "a@x.com" (fun _ => 0)).1 = .ok "aaaaaaaaaaaa" ∧
    (verify_user (reset_user_password resetCexDB "a@x.com" (fun _ => 0)).2
        "a@x.com" "aaaaaaaaaaaa").isSome = true :=
  ⟨rfl, rfl, rfl⟩
